import Mathlib

/-!
# Update Client Service (src/index.js)

A shallow embedding of the service defined in `src/index.js`:

* `getSecretFromLambda`  the secret provider client,
* `connectRabbitMQ` and `publishEvent`  the event publisher,
* `putClientHandler`  the handler of `PUT /clients/:ci`,
* `startService`  the bootstrap sequence.

Every asynchronous function of the source becomes a pure function from the
behaviour of its external collaborators (a `World`) to the list of effects it
performs, in program order, together with the way it settles (resolves with a
value or rejects with a thrown value).  Awaited calls are sequential, so a list
is an exact record of one run.
-/

namespace UpdateClient

/-! ## JavaScript values -/

/-- The JavaScript values the program handles: JSON data, `undefined`, and
`Error` instances (recorded with their constructor name and the argument the
constructor received).  Numbers are restricted to integers. -/
inductive JsVal where
  | undefined : JsVal
  | null : JsVal
  | bool (b : Bool) : JsVal
  | num (n : Int) : JsVal
  | str (s : String) : JsVal
  | arr (items : List JsVal) : JsVal
  | obj (props : List (String × JsVal)) : JsVal
  | errorObj (name : String) (message : JsVal) : JsVal

/-- Own-property lookup in the property list of an object (first binding of the key). -/
def lookupProp : List (String × JsVal) → String → JsVal
  | [], _ => JsVal.undefined
  | (k, v) :: rest, key => if k = key then v else lookupProp rest key

/-- The `TypeError` raised when a property of `undefined` or `null` is read. -/
def nullishTypeError (key : String) : JsVal :=
  JsVal.errorObj "TypeError" (JsVal.str key)

/-- Property read `v.key` (also the read performed by a destructuring pattern).
Reading from `undefined` or `null` throws; an object yields its own property or
`undefined`; every other value yields `undefined`, which is what JavaScript does
for the property names this program reads (`errorMessage`, `body`, `secret`,
`AWS_ACCESS_KEY_ID`, `AWS_SECRET_ACCESS_KEY`, `firstName`, `lastName`, `phone`,
`address`): none of them is defined on a built-in prototype. -/
def getProp (v : JsVal) (key : String) : Except JsVal JsVal :=
  match v with
  | JsVal.undefined => Except.error (nullishTypeError key)
  | JsVal.null => Except.error (nullishTypeError key)
  | JsVal.obj props => Except.ok (lookupProp props key)
  | _ => Except.ok JsVal.undefined

/-- JavaScript truthiness, as tested by `if (v)`. -/
def truthy (v : JsVal) : Bool :=
  match v with
  | JsVal.undefined => false
  | JsVal.null => false
  | JsVal.bool b => b
  | JsVal.num n => n != 0
  | JsVal.str s => s != ""
  | _ => true

/-! ## External collaborators -/

/-- Handle of a broker connection returned by `amqp.connect`. -/
abbrev Conn := Nat

/-- Handle of a broker channel returned by `connection.createChannel`. -/
abbrev Chan := Nat

/-- The value `lambda.invoke(params).promise()` resolves with. -/
structure InvokeResponse where
  StatusCode : Nat
  FunctionError : Option String
  Payload : JsVal

/-- Behaviour of everything the service calls but does not define.  A call that
rejects or throws is an `Except.error` carrying the thrown value. -/
structure World where
  /-- Outcome of `new AWS.Lambda(region).invoke(FunctionName).promise()`, by region and function name. -/
  lambdaInvoke : String → String → Except JsVal InvokeResponse
  /-- The built-in `JSON.parse`, applied to any value (it coerces its argument to a string). -/
  jsonParse : JsVal → Except JsVal JsVal
  /-- The built-in `JSON.stringify` on the tree-shaped values of `JsVal`, where it is total. -/
  jsonStringify : JsVal → String
  /-- String conversion used by a template literal. -/
  toStr : JsVal → String
  /-- Outcome of `amqp.connect(url)`. -/
  amqpConnect : String → Except JsVal Conn
  /-- Outcome of `connection.createChannel()`. -/
  createChannel : Conn → Except JsVal Chan
  /-- Outcome of `channel.assertQueue(queue, durable)`. -/
  assertQueue : Chan → String → Bool → Except JsVal Unit
  /-- Outcome of `channel.sendToQueue(queue, content, persistent)`, which may throw. -/
  sendToQueue : Chan → String → String → Bool → Except JsVal Unit
  /-- Outcome of `dynamoDB.update(params).promise()`. -/
  dbUpdate : JsVal → Except JsVal JsVal

/-- The observable actions of the service, recorded in program order. -/
inductive Effect where
  | lambdaInvoke (region functionName : String) : Effect
  | consoleLog (args : List JsVal) : Effect
  | consoleError (args : List JsVal) : Effect
  | expressCreated : Effect
  | useCors : Effect
  | useJson : Effect
  | awsConfigUpdate (region : String) (accessKeyId secretAccessKey : JsVal) : Effect
  | documentClientCreated : Effect
  | swaggerMounted (path : String) : Effect
  | amqpConnect (url : String) : Effect
  | createChannel (conn : Conn) : Effect
  | assertQueue (chan : Chan) (queue : String) (durable : Bool) : Effect
  | publishCall (eventType data : JsVal) : Effect
  | sendToQueue (chan : Chan) (queue : String) (content : String) (persistent : Bool) : Effect
  | dbUpdate (params : JsVal) : Effect
  | respond (status : Nat) (body : JsVal) : Effect
  | routePut (path : String) : Effect
  | routeGet (path : String) : Effect
  | listen (port : Nat) : Effect

/-- One run of a function defined at module level. -/
structure Run (α : Type) where
  effects : List Effect
  result : Except JsVal α

/-- One run of a function defined inside `startService`: it also sees the
closure variable `channel` (`none` while it is `undefined`). -/
structure Step (α : Type) where
  effects : List Effect
  channel : Option Chan
  result : Except JsVal α

/-! ## Secret provider client -/

/-- Source: `const region = "us-east-2"`. -/
def region : String := "us-east-2"

/-- Source: `const lambdaFunctionName = "fetchSecretsFunction_gr8"`. -/
def lambdaFunctionName : String := "fetchSecretsFunction_gr8"

/-- The statements of the `try` block of `getSecretFromLambda` that follow the
awaited invocation. -/
def decodeSecret (w : World) (response : InvokeResponse) : Except JsVal JsVal :=
  match w.jsonParse response.Payload with
  | Except.error e => Except.error e
  | Except.ok payload =>
    match getProp payload "errorMessage" with
    | Except.error e => Except.error e
    | Except.ok errorMessage =>
      if truthy errorMessage then
        Except.error (JsVal.errorObj "Error" errorMessage)
      else
        match getProp payload "body" with
        | Except.error e => Except.error e
        | Except.ok payloadBody =>
          match w.jsonParse payloadBody with
          | Except.error e => Except.error e
          | Except.ok body =>
            match getProp body "secret" with
            | Except.error e => Except.error e
            | Except.ok secret => w.jsonParse secret

/-- The `try` block of `getSecretFromLambda`. -/
def getSecretFromLambda_try (w : World) : Except JsVal JsVal :=
  match w.lambdaInvoke region lambdaFunctionName with
  | Except.error e => Except.error e
  | Except.ok response => decodeSecret w response

/-- Source: `async function getSecretFromLambda()`.  The `catch` block logs the
error and throws it again. -/
def getSecretFromLambda (w : World) : Run JsVal :=
  match getSecretFromLambda_try w with
  | Except.ok secrets =>
    { effects := [Effect.lambdaInvoke region lambdaFunctionName], result := Except.ok secrets }
  | Except.error e =>
    { effects := [Effect.lambdaInvoke region lambdaFunctionName,
                  Effect.consoleError [JsVal.str "Error invoking Lambda function:", e]],
      result := Except.error e }

/-! ## Event publisher -/

/-- Source: the broker address passed to `amqp.connect`. -/
def brokerUrl : String := "amqp://3.136.72.14:5672/"

/-- Source: the queue name used by `assertQueue` and `sendToQueue`. -/
def queueName : String := "client-events"

/-- The `try` block of `connectRabbitMQ`.  The closure variable `channel` is
assigned as soon as `createChannel` resolves, before the queue is declared. -/
def connectRabbitMQ_try (w : World) (channel : Option Chan) : Step Unit :=
  match w.amqpConnect brokerUrl with
  | Except.error e =>
    { effects := [Effect.amqpConnect brokerUrl], channel := channel, result := Except.error e }
  | Except.ok connection =>
    match w.createChannel connection with
    | Except.error e =>
      { effects := [Effect.amqpConnect brokerUrl, Effect.createChannel connection],
        channel := channel, result := Except.error e }
    | Except.ok ch =>
      match w.assertQueue ch queueName true with
      | Except.error e =>
        { effects := [Effect.amqpConnect brokerUrl, Effect.createChannel connection,
                      Effect.assertQueue ch queueName true],
          channel := some ch, result := Except.error e }
      | Except.ok _ =>
        { effects := [Effect.amqpConnect brokerUrl, Effect.createChannel connection,
                      Effect.assertQueue ch queueName true,
                      Effect.consoleLog [JsVal.str "Connected to RabbitMQ"]],
          channel := some ch, result := Except.ok () }

/-- Source: `async function connectRabbitMQ()`.  The `catch` block only logs. -/
def connectRabbitMQ (w : World) (channel : Option Chan) : Step Unit :=
  let r := connectRabbitMQ_try w channel
  match r.result with
  | Except.ok _ => r
  | Except.error e =>
    { effects := r.effects ++ [Effect.consoleError [JsVal.str "Error connecting to RabbitMQ:", e]],
      channel := r.channel, result := Except.ok () }

/-- Source: `const event = { eventType, data }`. -/
def mkEvent (eventType data : JsVal) : JsVal :=
  JsVal.obj [("eventType", eventType), ("data", data)]

/-- The `try` block of `publishEvent`. -/
def publishEvent_try (w : World) (channel : Option Chan) (event : JsVal) : Step Unit :=
  match channel with
  | some ch =>
    let content := w.jsonStringify event
    match w.sendToQueue ch queueName content true with
    | Except.error e =>
      { effects := [Effect.sendToQueue ch queueName content true],
        channel := channel, result := Except.error e }
    | Except.ok _ =>
      { effects := [Effect.sendToQueue ch queueName content true,
                    Effect.consoleLog [JsVal.str "Event published to RabbitMQ:", event]],
        channel := channel, result := Except.ok () }
  | none =>
    { effects := [Effect.consoleError [JsVal.str "Channel is not initialized"]],
      channel := channel, result := Except.ok () }

/-- Source: `const publishEvent = async (eventType, data) => ...`.  The call
itself is recorded as `Effect.publishCall`, so that publish attempts can be
counted whatever the state of the channel; `Effect.sendToQueue` records the
call of `channel.sendToQueue`, whether it then returns or throws. -/
def publishEvent (w : World) (channel : Option Chan) (eventType data : JsVal) : Step Unit :=
  let event := mkEvent eventType data
  let r := publishEvent_try w channel event
  match r.result with
  | Except.ok _ =>
    { effects := Effect.publishCall eventType data :: r.effects,
      channel := r.channel, result := Except.ok () }
  | Except.error e =>
    { effects := Effect.publishCall eventType data :: r.effects ++
        [Effect.consoleError [JsVal.str "Error publishing event to RabbitMQ:", e]],
      channel := r.channel, result := Except.ok () }

/-! ## Update orchestrator -/

/-- Source: the table named in the update parameters. -/
def tableName : String := "ClientsUpdate_gr8"

/-- Source: the `UpdateExpression` of the update parameters. -/
def updateExpression : String :=
  "set firstName = :firstName, lastName = :lastName, phone = :phone, address = :address"

/-- Source: `const params = ...` in the handler, an object literal with exactly
these five properties. -/
def updateParams (ci : String) (firstName lastName phone address : JsVal) : JsVal :=
  JsVal.obj
    [("TableName", JsVal.str tableName),
     ("Key", JsVal.obj [("ci", JsVal.str ci)]),
     ("UpdateExpression", JsVal.str updateExpression),
     ("ExpressionAttributeValues",
        JsVal.obj [(":firstName", firstName), (":lastName", lastName),
                   (":phone", phone), (":address", address)]),
     ("ReturnValues", JsVal.str "UPDATED_NEW")]

/-- Source: `const updatedClient = ...` in the handler. -/
def updatedClient (ci : String) (firstName lastName phone address : JsVal) : JsVal :=
  JsVal.obj
    [("ci", JsVal.str ci), ("firstName", firstName), ("lastName", lastName),
     ("phone", phone), ("address", address)]

/-- Body of the success response, `res.send` without an explicit status (200). -/
def successBody (result : JsVal) : JsVal :=
  JsVal.obj [("message", JsVal.str "Client updated"), ("result", result)]

/-- Body of the failure response sent with status 500. -/
def failureBody (error : JsVal) : JsVal :=
  JsVal.obj [("message", JsVal.str "Error updating client"), ("error", error)]

/-- An inbound `PUT /clients/:ci` request: the route parameter and `req.body`. -/
structure Request where
  ci : String
  body : JsVal

/-- The `try` block of the handler. -/
def putClientHandler_try (w : World) (channel : Option Chan) (ci : String)
    (firstName lastName phone address : JsVal) : Step Unit :=
  let params := updateParams ci firstName lastName phone address
  match w.dbUpdate params with
  | Except.error e =>
    { effects := [Effect.dbUpdate params], channel := channel, result := Except.error e }
  | Except.ok result =>
    let p := publishEvent w channel (JsVal.str "ClientUpdated")
      (updatedClient ci firstName lastName phone address)
    match p.result with
    | Except.error e =>
      { effects := Effect.dbUpdate params :: p.effects, channel := p.channel,
        result := Except.error e }
    | Except.ok _ =>
      { effects := Effect.dbUpdate params :: p.effects ++ [Effect.respond 200 (successBody result)],
        channel := p.channel, result := Except.ok () }

/-- The handler once `req.body` has been destructured. -/
def putClientHandler_fields (w : World) (channel : Option Chan) (ci : String)
    (firstName lastName phone address : JsVal) : Step Unit :=
  let r := putClientHandler_try w channel ci firstName lastName phone address
  match r.result with
  | Except.ok _ => r
  | Except.error e =>
    { effects := r.effects ++
        [Effect.consoleError [JsVal.str "Error updating client:", e],
         Effect.respond 500 (failureBody e)],
      channel := r.channel, result := Except.ok () }

/-- Source: the handler registered by `app.put` for `/clients/:ci`.  The
destructuring of `req.body` stands before the `try` block: when the body is
`undefined` or `null` the handler rejects without any effect.  The calls of
`console` and of `res` are taken to return normally. -/
def putClientHandler (w : World) (channel : Option Chan) (req : Request) : Step Unit :=
  match getProp req.body "firstName" with
  | Except.error e => { effects := [], channel := channel, result := Except.error e }
  | Except.ok firstName =>
    match getProp req.body "lastName" with
    | Except.error e => { effects := [], channel := channel, result := Except.error e }
    | Except.ok lastName =>
      match getProp req.body "phone" with
      | Except.error e => { effects := [], channel := channel, result := Except.error e }
      | Except.ok phone =>
        match getProp req.body "address" with
        | Except.error e => { effects := [], channel := channel, result := Except.error e }
        | Except.ok address =>
          putClientHandler_fields w channel req.ci firstName lastName phone address

/-! ## Service bootstrap -/

/-- Source: `const port = 8096`. -/
def port : Nat := 8096

/-- The part of `startService` that runs once `secrets` holds a value. -/
def startService_configured (w : World) (secrets : JsVal) : Step Unit :=
  let pre := [Effect.expressCreated, Effect.useCors, Effect.useJson]
  match getProp secrets "AWS_ACCESS_KEY_ID" with
  | Except.error e => { effects := pre, channel := none, result := Except.error e }
  | Except.ok accessKeyId =>
    match getProp secrets "AWS_SECRET_ACCESS_KEY" with
    | Except.error e => { effects := pre, channel := none, result := Except.error e }
    | Except.ok secretAccessKey =>
      let c := connectRabbitMQ w none
      let setup := pre ++
        [Effect.awsConfigUpdate region accessKeyId secretAccessKey,
         Effect.documentClientCreated,
         Effect.swaggerMounted "/api-docs"] ++ c.effects
      match c.result with
      | Except.error e => { effects := setup, channel := c.channel, result := Except.error e }
      | Except.ok _ =>
        { effects := setup ++
            [Effect.routePut "/clients/:ci",
             Effect.routeGet "/",
             Effect.listen port,
             Effect.consoleLog [JsVal.str "Update Client service listening at http://localhost:8096"]],
          channel := c.channel, result := Except.ok () }

/-- Source: `async function startService()`. -/
def startService (w : World) : Step Unit :=
  let s := getSecretFromLambda w
  match s.result with
  | Except.error e =>
    { effects := s.effects ++
        [Effect.consoleError [JsVal.str ("Error starting service: " ++ w.toStr e)]],
      channel := none, result := Except.ok () }
  | Except.ok secrets =>
    let r := startService_configured w secrets
    { effects := s.effects ++ r.effects, channel := r.channel, result := r.result }

/-! ## Trace observers -/

/-- The publish attempts of a trace: the arguments of each call of `publishEvent`. -/
def publishAttempts : List Effect → List (JsVal × JsVal)
  | [] => []
  | Effect.publishCall t d :: rest => (t, d) :: publishAttempts rest
  | _ :: rest => publishAttempts rest

/-- The messages handed to the broker: queue, content and persistence flag of
each `sendToQueue`. -/
def sentMessages : List Effect → List (String × String × Bool)
  | [] => []
  | Effect.sendToQueue _ q c p :: rest => (q, c, p) :: sentMessages rest
  | _ :: rest => sentMessages rest

/-- The parameters of each datastore update of a trace. -/
def dbUpdates : List Effect → List JsVal
  | [] => []
  | Effect.dbUpdate params :: rest => params :: dbUpdates rest
  | _ :: rest => dbUpdates rest

/-- The responses of a trace: status and body. -/
def responses : List Effect → List (Nat × JsVal)
  | [] => []
  | Effect.respond status body :: rest => (status, body) :: responses rest
  | _ :: rest => responses rest

/-- Recognises the configuration of the datastore client. -/
def Effect.isAwsConfig : Effect → Bool
  | Effect.awsConfigUpdate _ _ _ => true
  | Effect.documentClientCreated => true
  | _ => false

/-- Recognises the registration of a `PUT` route. -/
def Effect.isRoutePut : Effect → Bool
  | Effect.routePut _ => true
  | _ => false

/-- Recognises the start of the HTTP listener. -/
def Effect.isListen : Effect → Bool
  | Effect.listen _ => true
  | _ => false

/-- Recognises the remote secret invocation. -/
def Effect.isLambdaInvoke : Effect → Bool
  | Effect.lambdaInvoke _ _ => true
  | _ => false

/-- The world `w` in which every resolved secret invocation carries the given
`StatusCode` and `FunctionError` instead of its own, the payload unchanged. -/
def World.withStatus (w : World) (status : Nat) (functionError : Option String) : World :=
  { w with
    lambdaInvoke := fun r f =>
      (w.lambdaInvoke r f).map (fun response =>
        InvokeResponse.mk status functionError response.Payload) }

/-! ## Sample worlds used to instantiate the theorems -/

/-- A thrown value standing for a failure reported by an external collaborator. -/
def sampleFailure : JsVal := JsVal.errorObj "Error" (JsVal.str "unavailable")

/-- The attribute values a datastore reports for the sample request. -/
def sampleResult : JsVal :=
  JsVal.obj [("Attributes", JsVal.obj [("firstName", JsVal.str "A"), ("lastName", JsVal.str "B"),
    ("address", JsVal.str "X")])]

/-- The credential bundle of the samples. -/
def sampleBundle : JsVal :=
  JsVal.obj [("AWS_ACCESS_KEY_ID", JsVal.str "AK"), ("AWS_SECRET_ACCESS_KEY", JsVal.str "SK")]

/-- JSON text of `sampleBundle`. -/
def secretText : String := "\x7b\"AWS_ACCESS_KEY_ID\":\"AK\",\"AWS_SECRET_ACCESS_KEY\":\"SK\"\x7d"

/-- JSON text of the object whose `secret` property is the string `secretText`. -/
def bodyText : String := "\x7b\"secret\":\"\x7b\\\"AWS_ACCESS_KEY_ID\\\":\\\"AK\\\",\\\"AWS_SECRET_ACCESS_KEY\\\":\\\"SK\\\"\x7d\"\x7d"

/-- JSON text of a payload with `statusCode` 200 whose `body` property is the string `bodyText`. -/
def payloadText : String := "\x7b\"statusCode\":200,\"body\":\"\x7b\\\"secret\\\":\\\"\x7b\\\\\\\"AWS_ACCESS_KEY_ID\\\\\\\":\\\\\\\"AK\\\\\\\",\\\\\\\"AWS_SECRET_ACCESS_KEY\\\\\\\":\\\\\\\"SK\\\\\\\"\x7d\\\"\x7d\"\x7d"

/-- JSON text of a payload with `statusCode` 500 whose `body` property is the string `bodyText`. -/
def payloadText500 : String := "\x7b\"statusCode\":500,\"body\":\"\x7b\\\"secret\\\":\\\"\x7b\\\\\\\"AWS_ACCESS_KEY_ID\\\\\\\":\\\\\\\"AK\\\\\\\",\\\\\\\"AWS_SECRET_ACCESS_KEY\\\\\\\":\\\\\\\"SK\\\\\\\"\x7d\\\"\x7d\"\x7d"

/-- JSON text of a payload whose `errorMessage` is the empty string and whose
`body` property is the string `bodyText`. -/
def payloadTextEmptyMessage : String := "\x7b\"errorMessage\":\"\",\"body\":\"\x7b\\\"secret\\\":\\\"\x7b\\\\\\\"AWS_ACCESS_KEY_ID\\\\\\\":\\\\\\\"AK\\\\\\\",\\\\\\\"AWS_SECRET_ACCESS_KEY\\\\\\\":\\\\\\\"SK\\\\\\\"\x7d\\\"\x7d\"\x7d"

/-- JSON text of a payload whose only property is an empty `errorMessage`. -/
def payloadTextOnlyEmptyMessage : String := "\x7b\"errorMessage\":\"\"\x7d"

/-- JSON text of the payload of a failed function: an `errorMessage` and no body. -/
def payloadTextFunctionError : String := "\x7b\"errorMessage\":\"boom\"\x7d"

/-- The values `JSON.parse` yields on the seven sample texts; every other
argument is reported as malformed. -/
def sampleParse (v : JsVal) : Except JsVal JsVal :=
  match v with
  | JsVal.str s =>
    if s = payloadText then
      Except.ok (JsVal.obj [("statusCode", JsVal.num 200), ("body", JsVal.str bodyText)])
    else if s = payloadText500 then
      Except.ok (JsVal.obj [("statusCode", JsVal.num 500), ("body", JsVal.str bodyText)])
    else if s = payloadTextEmptyMessage then
      Except.ok (JsVal.obj [("errorMessage", JsVal.str ""), ("body", JsVal.str bodyText)])
    else if s = payloadTextOnlyEmptyMessage then
      Except.ok (JsVal.obj [("errorMessage", JsVal.str "")])
    else if s = payloadTextFunctionError then
      Except.ok (JsVal.obj [("errorMessage", JsVal.str "boom")])
    else if s = bodyText then
      Except.ok (JsVal.obj [("secret", JsVal.str secretText)])
    else if s = secretText then
      Except.ok sampleBundle
    else
      Except.error (JsVal.errorObj "SyntaxError" (JsVal.str s))
  | _ => Except.error (JsVal.errorObj "SyntaxError" JsVal.undefined)

/-- An invocation response with the given status fields and payload text. -/
def sampleResponse (status : Nat) (functionError : Option String) (text : String) :
    InvokeResponse where
  StatusCode := status
  FunctionError := functionError
  Payload := JsVal.str text

/-- A world in which every collaborator answers: the secret function returns the
sample payload, the broker accepts the connection, the channel and the queue,
and the datastore acknowledges every update. -/
def healthyWorld : World where
  lambdaInvoke := fun _ _ => Except.ok (sampleResponse 200 none payloadText)
  jsonParse := sampleParse
  jsonStringify := fun _ => "event"
  toStr := fun _ => "Error"
  amqpConnect := fun _ => Except.ok 1
  createChannel := fun _ => Except.ok 7
  assertQueue := fun _ _ _ => Except.ok ()
  sendToQueue := fun _ _ _ _ => Except.ok ()
  dbUpdate := fun _ => Except.ok sampleResult

/-- A world whose datastore rejects every update. -/
def datastoreDownWorld : World :=
  { healthyWorld with dbUpdate := fun _ => Except.error sampleFailure }

/-- A world whose broker channel throws on every send. -/
def brokerClosedWorld : World :=
  { healthyWorld with sendToQueue := fun _ _ _ _ => Except.error sampleFailure }

/-- A world whose secret invocation rejects. -/
def lambdaDownWorld : World :=
  { healthyWorld with lambdaInvoke := fun _ _ => Except.error sampleFailure }

/-- A world whose secret function answers with a text that is not JSON. -/
def garbledPayloadWorld : World :=
  { healthyWorld with lambdaInvoke := fun _ _ => Except.ok (sampleResponse 200 none "<html>") }

/-- A world whose secret function reports `statusCode` 500 in its payload and
still carries a decodable body. -/
def status500World : World :=
  { healthyWorld with
    lambdaInvoke := fun _ _ => Except.ok (sampleResponse 200 none payloadText500) }

/-- A world whose invocation response itself carries status 500 and a function
error, with the same payload as `status500World`. -/
def invokeStatus500World : World :=
  { healthyWorld with
    lambdaInvoke := fun _ _ => Except.ok (sampleResponse 500 (some "Unhandled") payloadText500) }

/-- A world whose secret function answers with an empty `errorMessage` next to
a decodable body. -/
def emptyMessageWorld : World :=
  { healthyWorld with
    lambdaInvoke := fun _ _ => Except.ok (sampleResponse 200 none payloadTextEmptyMessage) }

/-- A world whose secret function answers with an empty `errorMessage` and
nothing else, as a function failing with an empty message does. -/
def onlyEmptyMessageWorld : World :=
  { healthyWorld with
    lambdaInvoke := fun _ _ =>
      Except.ok (sampleResponse 200 (some "Unhandled") payloadTextOnlyEmptyMessage) }

/-- A world whose secret function failed and reports the message `boom`. -/
def functionErrorWorld : World :=
  { healthyWorld with
    lambdaInvoke := fun _ _ =>
      Except.ok (sampleResponse 200 (some "Unhandled") payloadTextFunctionError) }

/-- A world whose broker accepts the connection and opens the channel 7 but
refuses to declare the queue. -/
def queueRefusedWorld : World :=
  { healthyWorld with assertQueue := fun _ _ _ => Except.error sampleFailure }

/-- A request that submits three of the four fields: `phone` is absent. -/
def sampleRequest : Request where
  ci := "123"
  body := JsVal.obj [("firstName", JsVal.str "A"), ("lastName", JsVal.str "B"),
    ("address", JsVal.str "X")]

/-! ## Lemmas on traces -/

/-- A key bound nowhere in a property list reads as `undefined`. -/
theorem lookupProp_absent (props : List (String × JsVal)) (key : String)
    (h : ∀ v, (key, v) ∉ props) : lookupProp props key = JsVal.undefined := by
  induction props with
  | nil => rfl
  | cons kv rest ih =>
    obtain ⟨k, v⟩ := kv
    have hk : k ≠ key := by
      intro hk
      exact h v (by simp [hk])
    simp only [lookupProp, hk, if_false]
    exact ih (fun v hv => h v (List.mem_cons_of_mem _ hv))

theorem publishAttempts_append (xs ys : List Effect) :
    publishAttempts (xs ++ ys) = publishAttempts xs ++ publishAttempts ys := by
  induction xs with
  | nil => rfl
  | cons x xs ih => cases x <;> simp [publishAttempts, ih]

theorem sentMessages_append (xs ys : List Effect) :
    sentMessages (xs ++ ys) = sentMessages xs ++ sentMessages ys := by
  induction xs with
  | nil => rfl
  | cons x xs ih => cases x <;> simp [sentMessages, ih]

theorem dbUpdates_append (xs ys : List Effect) :
    dbUpdates (xs ++ ys) = dbUpdates xs ++ dbUpdates ys := by
  induction xs with
  | nil => rfl
  | cons x xs ih => cases x <;> simp [dbUpdates, ih]

theorem responses_append (xs ys : List Effect) :
    responses (xs ++ ys) = responses xs ++ responses ys := by
  induction xs with
  | nil => rfl
  | cons x xs ih => cases x <;> simp [responses, ih]

/-- The handler on a body that destructures runs the `try`/`catch` on the four fields. -/
theorem putClientHandler_of_fields (w : World) (channel : Option Chan) (req : Request)
    (firstName lastName phone address : JsVal)
    (hf : getProp req.body "firstName" = Except.ok firstName)
    (hl : getProp req.body "lastName" = Except.ok lastName)
    (hp : getProp req.body "phone" = Except.ok phone)
    (ha : getProp req.body "address" = Except.ok address) :
    putClientHandler w channel req =
      putClientHandler_fields w channel req.ci firstName lastName phone address := by
  simp [putClientHandler, hf, hl, hp, ha]

/-- The publisher always resolves. -/
theorem publishEvent_result (w : World) (channel : Option Chan) (eventType data : JsVal) :
    (publishEvent w channel eventType data).result = Except.ok () := by
  simp only [publishEvent]
  cases h : (publishEvent_try w channel (mkEvent eventType data)).result <;> simp [h]

/-- A call of the publisher is one publish attempt with the arguments of the call. -/
theorem publishEvent_attempts (w : World) (channel : Option Chan) (eventType data : JsVal) :
    publishAttempts (publishEvent w channel eventType data).effects = [(eventType, data)] := by
  unfold publishEvent publishEvent_try
  cases channel with
  | none => simp [publishAttempts]
  | some ch =>
    cases h : w.sendToQueue ch queueName (w.jsonStringify (mkEvent eventType data)) true <;>
      simp [h, publishAttempts]

/-- The publisher performs no datastore update and sends no response. -/
theorem publishEvent_no_update_no_response (w : World) (channel : Option Chan)
    (eventType data : JsVal) :
    dbUpdates (publishEvent w channel eventType data).effects = [] ∧
    responses (publishEvent w channel eventType data).effects = [] := by
  unfold publishEvent publishEvent_try
  cases channel with
  | none => simp [dbUpdates, responses]
  | some ch =>
    cases h : w.sendToQueue ch queueName (w.jsonStringify (mkEvent eventType data)) true <;>
      simp [h, dbUpdates, responses]

/-- Either the destructuring of the body throws and the handler has no effect,
or the handler runs its `try`/`catch` on the four fields read from the body. -/
theorem putClientHandler_cases (w : World) (channel : Option Chan) (req : Request) :
    (putClientHandler w channel req).effects = [] ∨
    ∃ firstName lastName phone address,
      getProp req.body "firstName" = Except.ok firstName ∧
      getProp req.body "lastName" = Except.ok lastName ∧
      getProp req.body "phone" = Except.ok phone ∧
      getProp req.body "address" = Except.ok address ∧
      putClientHandler w channel req =
        putClientHandler_fields w channel req.ci firstName lastName phone address := by
  cases hf : getProp req.body "firstName" with
  | error e => left; simp [putClientHandler, hf]
  | ok firstName =>
    cases hl : getProp req.body "lastName" with
    | error e => left; simp [putClientHandler, hf, hl]
    | ok lastName =>
      cases hp : getProp req.body "phone" with
      | error e => left; simp [putClientHandler, hf, hl, hp]
      | ok phone =>
        cases ha : getProp req.body "address" with
        | error e => left; simp [putClientHandler, hf, hl, hp, ha]
        | ok address =>
          right
          exact ⟨firstName, lastName, phone, address, rfl, rfl, rfl, rfl,
            putClientHandler_of_fields w channel req firstName lastName phone address hf hl hp ha⟩

/-- The run of the handler when the datastore acknowledges the update. -/
theorem putClientHandler_fields_ok (w : World) (channel : Option Chan) (ci : String)
    (firstName lastName phone address r : JsVal)
    (hdb : w.dbUpdate (updateParams ci firstName lastName phone address) = Except.ok r) :
    putClientHandler_fields w channel ci firstName lastName phone address =
      { effects := Effect.dbUpdate (updateParams ci firstName lastName phone address) ::
          (publishEvent w channel (JsVal.str "ClientUpdated")
            (updatedClient ci firstName lastName phone address)).effects ++
          [Effect.respond 200 (successBody r)],
        channel := (publishEvent w channel (JsVal.str "ClientUpdated")
            (updatedClient ci firstName lastName phone address)).channel,
        result := Except.ok () } := by
  simp only [putClientHandler_fields, putClientHandler_try, hdb, publishEvent_result]

/-- The run of the handler when the datastore update fails. -/
theorem putClientHandler_fields_error (w : World) (channel : Option Chan) (ci : String)
    (firstName lastName phone address e : JsVal)
    (hdb : w.dbUpdate (updateParams ci firstName lastName phone address) = Except.error e) :
    putClientHandler_fields w channel ci firstName lastName phone address =
      { effects := [Effect.dbUpdate (updateParams ci firstName lastName phone address),
          Effect.consoleError [JsVal.str "Error updating client:", e],
          Effect.respond 500 (failureBody e)],
        channel := channel,
        result := Except.ok () } := by
  simp [putClientHandler_fields, putClientHandler_try, hdb]

/-- The secret client settles with the outcome of its `try` block. -/
theorem getSecretFromLambda_result (w : World) :
    (getSecretFromLambda w).result = getSecretFromLambda_try w := by
  unfold getSecretFromLambda
  cases getSecretFromLambda_try w <;> rfl

/-- The effects of a failed secret fetch: the invocation and the logged error. -/
theorem getSecretFromLambda_effects_error (w : World) (e : JsVal)
    (h : (getSecretFromLambda w).result = Except.error e) :
    (getSecretFromLambda w).effects =
      [Effect.lambdaInvoke region lambdaFunctionName,
       Effect.consoleError [JsVal.str "Error invoking Lambda function:", e]] := by
  unfold getSecretFromLambda at h ⊢
  cases ht : getSecretFromLambda_try w with
  | ok v => simp [ht] at h
  | error e2 =>
    simp only [ht, Except.error.injEq] at h
    simp [h]

/-- The effects of a successful secret fetch: the invocation alone. -/
theorem getSecretFromLambda_effects_ok (w : World) (v : JsVal)
    (h : (getSecretFromLambda w).result = Except.ok v) :
    (getSecretFromLambda w).effects = [Effect.lambdaInvoke region lambdaFunctionName] := by
  unfold getSecretFromLambda at h ⊢
  cases ht : getSecretFromLambda_try w with
  | ok v => rfl
  | error e2 => simp [ht] at h

/-- The connection routine always resolves: its `catch` block absorbs every failure. -/
theorem connectRabbitMQ_resolves (w : World) (channel : Option Chan) :
    (connectRabbitMQ w channel).result = Except.ok () := by
  simp only [connectRabbitMQ]
  cases h : (connectRabbitMQ_try w channel).result <;> simp [h]

/-- A failure of `amqp.connect` or of `createChannel` leaves the channel variable untouched. -/
theorem connectRabbitMQ_channel_of_early_failure (w : World) (channel : Option Chan) :
    (∀ e, w.amqpConnect brokerUrl = Except.error e →
      (connectRabbitMQ w channel).channel = channel) ∧
    (∀ connection e, w.amqpConnect brokerUrl = Except.ok connection →
      w.createChannel connection = Except.error e →
      (connectRabbitMQ w channel).channel = channel) := by
  constructor
  · intro e h
    simp [connectRabbitMQ, connectRabbitMQ_try, h]
  · intro connection e h1 h2
    simp [connectRabbitMQ, connectRabbitMQ_try, h1, h2]

/-! ## Claims -/

/-- C1: when the datastore update of the handler succeeds, the handler makes
exactly one publish attempt; it carries the event type `ClientUpdated` and the
data `ci, firstName, lastName, phone, address` as submitted in the request,
whatever value `r` the datastore returned. -/
theorem handler_publishes_submitted_fields (w : World) (channel : Option Chan) (req : Request)
    (firstName lastName phone address r : JsVal)
    (hf : getProp req.body "firstName" = Except.ok firstName)
    (hl : getProp req.body "lastName" = Except.ok lastName)
    (hp : getProp req.body "phone" = Except.ok phone)
    (ha : getProp req.body "address" = Except.ok address)
    (hdb : w.dbUpdate (updateParams req.ci firstName lastName phone address) = Except.ok r) :
    publishAttempts (putClientHandler w channel req).effects =
      [(JsVal.str "ClientUpdated",
        JsVal.obj [("ci", JsVal.str req.ci), ("firstName", firstName), ("lastName", lastName),
          ("phone", phone), ("address", address)])] := by
  rw [putClientHandler_of_fields w channel req firstName lastName phone address hf hl hp ha]
  simp only [putClientHandler_fields, putClientHandler_try, hdb, publishEvent_result]
  simp [publishAttempts, publishAttempts_append, publishEvent_attempts, updatedClient]

theorem handler_publishes_submitted_fields_witness :
    publishAttempts (putClientHandler healthyWorld (some 7) sampleRequest).effects =
      [(JsVal.str "ClientUpdated",
        JsVal.obj [("ci", JsVal.str "123"), ("firstName", JsVal.str "A"),
          ("lastName", JsVal.str "B"), ("phone", JsVal.undefined),
          ("address", JsVal.str "X")])] :=
  handler_publishes_submitted_fields healthyWorld (some 7) sampleRequest
    (JsVal.str "A") (JsVal.str "B") JsVal.undefined (JsVal.str "X") sampleResult
    rfl rfl rfl rfl rfl

/-- C2: if the datastore call of the handler fails with `e`, the handler makes
no publish attempt, sends no message to the broker, and answers with status 500
and the body `message: Error updating client, error: e`; and in every run that
contains a publish attempt or a message sent to the broker, the first effect is
the datastore update and that update succeeded. -/
theorem handler_publishes_only_after_update (w : World) (channel : Option Chan) (req : Request) :
    (∀ firstName lastName phone address e,
      getProp req.body "firstName" = Except.ok firstName →
      getProp req.body "lastName" = Except.ok lastName →
      getProp req.body "phone" = Except.ok phone →
      getProp req.body "address" = Except.ok address →
      w.dbUpdate (updateParams req.ci firstName lastName phone address) = Except.error e →
        publishAttempts (putClientHandler w channel req).effects = [] ∧
        sentMessages (putClientHandler w channel req).effects = [] ∧
        responses (putClientHandler w channel req).effects =
          [(500, JsVal.obj [("message", JsVal.str "Error updating client"), ("error", e)])]) ∧
    (publishAttempts (putClientHandler w channel req).effects ≠ [] ∨
      sentMessages (putClientHandler w channel req).effects ≠ [] →
        ∃ params r rest,
          (putClientHandler w channel req).effects = Effect.dbUpdate params :: rest ∧
          w.dbUpdate params = Except.ok r) := by
  constructor
  · intro firstName lastName phone address e hf hl hp ha hdb
    rw [putClientHandler_of_fields w channel req firstName lastName phone address hf hl hp ha,
      putClientHandler_fields_error w channel req.ci firstName lastName phone address e hdb]
    simp [publishAttempts, sentMessages, responses, failureBody]
  · intro h
    rcases putClientHandler_cases w channel req with h0 | ⟨f, l, p, a, -, -, -, -, heq⟩
    · rw [h0] at h
      simp [publishAttempts, sentMessages] at h
    · cases hdb : w.dbUpdate (updateParams req.ci f l p a) with
      | error e =>
        rw [heq, putClientHandler_fields_error w channel req.ci f l p a e hdb] at h
        simp [publishAttempts, sentMessages] at h
      | ok r =>
        rw [heq, putClientHandler_fields_ok w channel req.ci f l p a r hdb]
        exact ⟨_, r, _, rfl, hdb⟩

theorem handler_publishes_only_after_update_witness :
    (publishAttempts (putClientHandler datastoreDownWorld (some 7) sampleRequest).effects = [] ∧
      sentMessages (putClientHandler datastoreDownWorld (some 7) sampleRequest).effects = [] ∧
      responses (putClientHandler datastoreDownWorld (some 7) sampleRequest).effects =
        [(500, JsVal.obj [("message", JsVal.str "Error updating client"),
          ("error", sampleFailure)])]) ∧
    ∃ params r rest,
      (putClientHandler healthyWorld (some 7) sampleRequest).effects =
        Effect.dbUpdate params :: rest ∧
      healthyWorld.dbUpdate params = Except.ok r :=
  ⟨(handler_publishes_only_after_update datastoreDownWorld (some 7) sampleRequest).1
      (JsVal.str "A") (JsVal.str "B") JsVal.undefined (JsVal.str "X") sampleFailure
      rfl rfl rfl rfl rfl,
    (handler_publishes_only_after_update healthyWorld (some 7) sampleRequest).2
      (Or.inl (by simp [putClientHandler, putClientHandler_fields, putClientHandler_try,
        publishEvent, publishEvent_try, sampleRequest, getProp, lookupProp, healthyWorld,
        publishAttempts]))⟩

/-- C3: when the datastore update of the handler succeeds with result `r`, the
handler resolves and its one response is status 200 with the body
`message: Client updated, result: r`, for every state of the channel (present
or absent) and every behaviour of the broker (the send may throw); and
`publishEvent` always resolves, it never rejects towards its caller. -/
theorem handler_success_response_ignores_publisher (w : World) (channel : Option Chan)
    (req : Request) (firstName lastName phone address r : JsVal)
    (hf : getProp req.body "firstName" = Except.ok firstName)
    (hl : getProp req.body "lastName" = Except.ok lastName)
    (hp : getProp req.body "phone" = Except.ok phone)
    (ha : getProp req.body "address" = Except.ok address)
    (hdb : w.dbUpdate (updateParams req.ci firstName lastName phone address) = Except.ok r) :
    responses (putClientHandler w channel req).effects =
      [(200, JsVal.obj [("message", JsVal.str "Client updated"), ("result", r)])] ∧
    (putClientHandler w channel req).result = Except.ok () ∧
    ∀ eventType data, (publishEvent w channel eventType data).result = Except.ok () := by
  rw [putClientHandler_of_fields w channel req firstName lastName phone address hf hl hp ha,
    putClientHandler_fields_ok w channel req.ci firstName lastName phone address r hdb]
  refine ⟨?_, rfl, fun t d => publishEvent_result w channel t d⟩
  simp [responses, responses_append, (publishEvent_no_update_no_response w channel _ _).2,
    successBody]

theorem handler_success_response_ignores_publisher_witness :
    (responses (putClientHandler brokerClosedWorld (some 7) sampleRequest).effects =
      [(200, JsVal.obj [("message", JsVal.str "Client updated"), ("result", sampleResult)])] ∧
    (putClientHandler brokerClosedWorld (some 7) sampleRequest).result = Except.ok () ∧
    ∀ eventType data,
      (publishEvent brokerClosedWorld (some 7) eventType data).result = Except.ok ()) ∧
    brokerClosedWorld.sendToQueue 7 queueName "event" true = Except.error sampleFailure :=
  ⟨handler_success_response_ignores_publisher brokerClosedWorld (some 7) sampleRequest
    (JsVal.str "A") (JsVal.str "B") JsVal.undefined (JsVal.str "X") sampleResult
    rfl rfl rfl rfl rfl, rfl⟩

/-- C7 (the code departs from the documented responses): whatever the request and
whatever the datastore answers, the handler sends at most one response and its
status is 200 or 500; the documented 404 `Client not found` is never produced. -/
theorem handler_status_is_200_or_500 (w : World) (channel : Option Chan) (req : Request) :
    (responses (putClientHandler w channel req).effects).map Prod.fst = [] ∨
    (responses (putClientHandler w channel req).effects).map Prod.fst = [200] ∨
    (responses (putClientHandler w channel req).effects).map Prod.fst = [500] := by
  rcases putClientHandler_cases w channel req with h0 | ⟨f, l, p, a, -, -, -, -, heq⟩
  · left
    rw [h0]
    rfl
  · cases hdb : w.dbUpdate (updateParams req.ci f l p a) with
    | error e =>
      right; right
      rw [heq, putClientHandler_fields_error w channel req.ci f l p a e hdb]
      simp [responses]
    | ok r =>
      right; left
      rw [heq, putClientHandler_fields_ok w channel req.ci f l p a r hdb]
      simp [responses, responses_append, (publishEvent_no_update_no_response w channel _ _).2]

/-- C8: with the channel established, `publishEvent(eventType, data)` sends
exactly one message: to the queue `client-events`, with the JSON serialization
of the object `eventType, data` as content, marked persistent.  With the channel
absent it sends nothing and leaves the publisher state as it was (the channel
stays absent, nothing is stored), so that a later publish on an established
channel sends its own message only. -/
theorem publishEvent_sends_one_persistent_message (w : World) (eventType data : JsVal) :
    (∀ ch : Chan, sentMessages (publishEvent w (some ch) eventType data).effects =
      [("client-events",
        w.jsonStringify (JsVal.obj [("eventType", eventType), ("data", data)]), true)]) ∧
    sentMessages (publishEvent w none eventType data).effects = [] ∧
    (publishEvent w none eventType data).channel = none ∧
    (∀ (ch : Chan) (eventType2 data2 : JsVal),
      sentMessages ((publishEvent w none eventType data).effects ++
          (publishEvent w (some ch) eventType2 data2).effects) =
        [("client-events",
          w.jsonStringify (JsVal.obj [("eventType", eventType2), ("data", data2)]), true)]) := by
  have hsome : ∀ (ch : Chan) (t d : JsVal),
      sentMessages (publishEvent w (some ch) t d).effects =
        [("client-events", w.jsonStringify (JsVal.obj [("eventType", t), ("data", d)]), true)] := by
    intro ch t d
    simp only [publishEvent, publishEvent_try]
    cases h : w.sendToQueue ch queueName (w.jsonStringify (mkEvent t d)) true <;>
      simp [sentMessages, queueName, mkEvent]
  have hnone : sentMessages (publishEvent w none eventType data).effects = [] := by
    simp [publishEvent, publishEvent_try, sentMessages]
  refine ⟨fun ch => hsome ch eventType data, hnone, ?_, ?_⟩
  · simp [publishEvent, publishEvent_try]
  · intro ch t d
    rw [sentMessages_append, hnone, hsome ch t d]
    rfl

/-- C9: for every request whose body destructures, the handler issues exactly
one datastore update; its parameters name the table `ClientsUpdate_gr8`, the key
is exactly `ci`, there is no condition expression, the update expression sets
the four attributes, and the four attribute values are the values read from the
body, a field absent from the body being present with the value `undefined`. -/
theorem handler_update_parameters (w : World) (channel : Option Chan) (req : Request)
    (firstName lastName phone address : JsVal)
    (hf : getProp req.body "firstName" = Except.ok firstName)
    (hl : getProp req.body "lastName" = Except.ok lastName)
    (hp : getProp req.body "phone" = Except.ok phone)
    (ha : getProp req.body "address" = Except.ok address) :
    ∃ params,
      dbUpdates (putClientHandler w channel req).effects = [params] ∧
      getProp params "TableName" = Except.ok (JsVal.str "ClientsUpdate_gr8") ∧
      getProp params "Key" = Except.ok (JsVal.obj [("ci", JsVal.str req.ci)]) ∧
      getProp params "ConditionExpression" = Except.ok JsVal.undefined ∧
      getProp params "UpdateExpression" = Except.ok (JsVal.str
        "set firstName = :firstName, lastName = :lastName, phone = :phone, address = :address") ∧
      getProp params "ExpressionAttributeValues" = Except.ok (JsVal.obj
        [(":firstName", firstName), (":lastName", lastName),
         (":phone", phone), (":address", address)]) ∧
      (∀ props, req.body = JsVal.obj props →
        ((∀ v, ("firstName", v) ∉ props) → firstName = JsVal.undefined) ∧
        ((∀ v, ("lastName", v) ∉ props) → lastName = JsVal.undefined) ∧
        ((∀ v, ("phone", v) ∉ props) → phone = JsVal.undefined) ∧
        ((∀ v, ("address", v) ∉ props) → address = JsVal.undefined)) := by
  refine ⟨updateParams req.ci firstName lastName phone address, ?_, ?_, ?_, ?_, ?_, ?_, ?_⟩
  · rw [putClientHandler_of_fields w channel req firstName lastName phone address hf hl hp ha]
    cases hdb : w.dbUpdate (updateParams req.ci firstName lastName phone address) with
    | error e =>
      rw [putClientHandler_fields_error w channel req.ci firstName lastName phone address e hdb]
      simp [dbUpdates]
    | ok r =>
      rw [putClientHandler_fields_ok w channel req.ci firstName lastName phone address r hdb]
      simp [dbUpdates, dbUpdates_append, (publishEvent_no_update_no_response w channel _ _).1]
  · rfl
  · rfl
  · rfl
  · rfl
  · rfl
  · intro props hb
    rw [hb] at hf hl hp ha
    simp only [getProp, Except.ok.injEq] at hf hl hp ha
    exact ⟨fun h => hf ▸ lookupProp_absent props _ h, fun h => hl ▸ lookupProp_absent props _ h,
      fun h => hp ▸ lookupProp_absent props _ h, fun h => ha ▸ lookupProp_absent props _ h⟩

theorem handler_update_parameters_witness :
    ∃ params,
      dbUpdates (putClientHandler healthyWorld none sampleRequest).effects = [params] ∧
      getProp params "TableName" = Except.ok (JsVal.str "ClientsUpdate_gr8") ∧
      getProp params "Key" = Except.ok (JsVal.obj [("ci", JsVal.str "123")]) ∧
      getProp params "ConditionExpression" = Except.ok JsVal.undefined ∧
      getProp params "UpdateExpression" = Except.ok (JsVal.str
        "set firstName = :firstName, lastName = :lastName, phone = :phone, address = :address") ∧
      getProp params "ExpressionAttributeValues" = Except.ok (JsVal.obj
        [(":firstName", JsVal.str "A"), (":lastName", JsVal.str "B"),
         (":phone", JsVal.undefined), (":address", JsVal.str "X")]) ∧
      (∀ props, sampleRequest.body = JsVal.obj props →
        ((∀ v, ("firstName", v) ∉ props) → JsVal.str "A" = JsVal.undefined) ∧
        ((∀ v, ("lastName", v) ∉ props) → JsVal.str "B" = JsVal.undefined) ∧
        ((∀ v, ("phone", v) ∉ props) → JsVal.undefined = JsVal.undefined) ∧
        ((∀ v, ("address", v) ∉ props) → JsVal.str "X" = JsVal.undefined)) :=
  handler_update_parameters healthyWorld none sampleRequest
    (JsVal.str "A") (JsVal.str "B") JsVal.undefined (JsVal.str "X") rfl rfl rfl rfl

/-- C4: if `getSecretFromLambda` fails, `startService` never configures the
datastore client, never registers the `PUT` route and never starts the HTTP
listener; and in every run in which the listener starts, the secret fetch has
succeeded and its invocation stands before the start of the listener. -/
theorem startService_fails_fast (w : World) :
    (∀ e, (getSecretFromLambda w).result = Except.error e →
      (startService w).effects.any Effect.isAwsConfig = false ∧
      (startService w).effects.any Effect.isRoutePut = false ∧
      (startService w).effects.any Effect.isListen = false) ∧
    (∀ pre p post, (startService w).effects = pre ++ Effect.listen p :: post →
      ∃ secrets, (getSecretFromLambda w).result = Except.ok secrets ∧
        Effect.lambdaInvoke region lambdaFunctionName ∈ pre) := by
  constructor
  · intro e he
    have heff := getSecretFromLambda_effects_error w e he
    simp [startService, he, heff, Effect.isAwsConfig, Effect.isRoutePut, Effect.isListen]
  · intro pre p post hdec
    cases hs : (getSecretFromLambda w).result with
    | error e =>
      have heff := getSecretFromLambda_effects_error w e hs
      have hmem : Effect.listen p ∈ (startService w).effects := by
        rw [hdec]
        simp
      simp [startService, hs, heff] at hmem
    | ok secrets =>
      refine ⟨secrets, rfl, ?_⟩
      have heff := getSecretFromLambda_effects_ok w secrets hs
      simp only [startService, hs, heff, List.singleton_append] at hdec
      cases pre with
      | nil => simp at hdec
      | cons x pre2 =>
        simp only [List.cons_append, List.cons.injEq] at hdec
        rw [← hdec.1]
        exact List.mem_cons_self _ _

theorem startService_fails_fast_witness :
    ((startService lambdaDownWorld).effects.any Effect.isAwsConfig = false ∧
      (startService lambdaDownWorld).effects.any Effect.isRoutePut = false ∧
      (startService lambdaDownWorld).effects.any Effect.isListen = false) ∧
    ∃ secrets, (getSecretFromLambda healthyWorld).result = Except.ok secrets ∧
      Effect.lambdaInvoke region lambdaFunctionName ∈
        [Effect.lambdaInvoke region lambdaFunctionName, Effect.expressCreated, Effect.useCors,
         Effect.useJson, Effect.awsConfigUpdate region (JsVal.str "AK") (JsVal.str "SK"),
         Effect.documentClientCreated, Effect.swaggerMounted "/api-docs",
         Effect.amqpConnect brokerUrl, Effect.createChannel 1,
         Effect.assertQueue 7 queueName true,
         Effect.consoleLog [JsVal.str "Connected to RabbitMQ"],
         Effect.routePut "/clients/:ci", Effect.routeGet "/"] :=
  ⟨(startService_fails_fast lambdaDownWorld).1 sampleFailure rfl,
    (startService_fails_fast healthyWorld).2 _ port
      [Effect.consoleLog [JsVal.str "Update Client service listening at http://localhost:8096"]]
      rfl⟩

/-- C5 as stated fails: a payload that carries an `errorMessage` which is the
empty string, next to a decodable body, makes `getSecretFromLambda` return the
credential bundle; and a payload that carries only an empty `errorMessage` makes
it fail with the error of parsing the missing body, not with an `Error` built
from the message. -/
theorem getSecretFromLambda_returns_bundle_on_empty_errorMessage :
    (emptyMessageWorld.lambdaInvoke region lambdaFunctionName =
        Except.ok (sampleResponse 200 none payloadTextEmptyMessage) ∧
      emptyMessageWorld.jsonParse (JsVal.str payloadTextEmptyMessage) =
        Except.ok (JsVal.obj [("errorMessage", JsVal.str ""), ("body", JsVal.str bodyText)]) ∧
      (getSecretFromLambda emptyMessageWorld).result = Except.ok sampleBundle) ∧
    (onlyEmptyMessageWorld.jsonParse (JsVal.str payloadTextOnlyEmptyMessage) =
        Except.ok (JsVal.obj [("errorMessage", JsVal.str "")]) ∧
      (getSecretFromLambda onlyEmptyMessageWorld).result =
        Except.error (JsVal.errorObj "SyntaxError" JsVal.undefined) ∧
      (getSecretFromLambda onlyEmptyMessageWorld).result ≠
        Except.error (JsVal.errorObj "Error" (JsVal.str ""))) :=
  ⟨⟨rfl, rfl, rfl⟩, rfl, rfl, by
    intro h
    have h2 : (Except.error (JsVal.errorObj "SyntaxError" JsVal.undefined) : Except JsVal JsVal) =
        Except.error (JsVal.errorObj "Error" (JsVal.str "")) := h
    simp at h2⟩

/-- C5 amended: on a resolved invocation `getSecretFromLambda` decodes three
nested levels, the response payload, the `body` of the payload and the `secret`
of the body, and returns the value decoded from `secret`.  A decoding failure at
any of the three levels makes it fail with that very error, a payload whose
`errorMessage` is truthy makes it fail with an `Error` built from that message,
and it returns a value only when all three levels decoded. -/
theorem getSecretFromLambda_decodes_three_levels (w : World) (response : InvokeResponse)
    (hinv : w.lambdaInvoke region lambdaFunctionName = Except.ok response) :
    (∀ e, w.jsonParse response.Payload = Except.error e →
      (getSecretFromLambda w).result = Except.error e) ∧
    (∀ payload errorMessage, w.jsonParse response.Payload = Except.ok payload →
      getProp payload "errorMessage" = Except.ok errorMessage → truthy errorMessage = true →
      (getSecretFromLambda w).result = Except.error (JsVal.errorObj "Error" errorMessage)) ∧
    (∀ payload errorMessage payloadBody e, w.jsonParse response.Payload = Except.ok payload →
      getProp payload "errorMessage" = Except.ok errorMessage → truthy errorMessage = false →
      getProp payload "body" = Except.ok payloadBody →
      w.jsonParse payloadBody = Except.error e →
      (getSecretFromLambda w).result = Except.error e) ∧
    (∀ payload errorMessage payloadBody body secret e,
      w.jsonParse response.Payload = Except.ok payload →
      getProp payload "errorMessage" = Except.ok errorMessage → truthy errorMessage = false →
      getProp payload "body" = Except.ok payloadBody →
      w.jsonParse payloadBody = Except.ok body →
      getProp body "secret" = Except.ok secret →
      w.jsonParse secret = Except.error e →
      (getSecretFromLambda w).result = Except.error e) ∧
    (∀ payload errorMessage payloadBody body secret v,
      w.jsonParse response.Payload = Except.ok payload →
      getProp payload "errorMessage" = Except.ok errorMessage → truthy errorMessage = false →
      getProp payload "body" = Except.ok payloadBody →
      w.jsonParse payloadBody = Except.ok body →
      getProp body "secret" = Except.ok secret →
      w.jsonParse secret = Except.ok v →
      (getSecretFromLambda w).result = Except.ok v) ∧
    (∀ v, (getSecretFromLambda w).result = Except.ok v →
      ∃ payload payloadBody body secret,
        w.jsonParse response.Payload = Except.ok payload ∧
        getProp payload "body" = Except.ok payloadBody ∧
        w.jsonParse payloadBody = Except.ok body ∧
        getProp body "secret" = Except.ok secret ∧
        w.jsonParse secret = Except.ok v) := by
  have hres : (getSecretFromLambda w).result = decodeSecret w response := by
    rw [getSecretFromLambda_result]
    simp [getSecretFromLambda_try, hinv]
  rw [hres]
  refine ⟨?_, ?_, ?_, ?_, ?_, ?_⟩
  · intro e h1
    simp [decodeSecret, h1]
  · intro payload em h1 hem ht
    simp [decodeSecret, h1, hem, ht]
  · intro payload em pb e h1 hem ht hb h2
    simp [decodeSecret, h1, hem, ht, hb, h2]
  · intro payload em pb body secret e h1 hem ht hb h2 hs h3
    simp [decodeSecret, h1, hem, ht, hb, h2, hs, h3]
  · intro payload em pb body secret v h1 hem ht hb h2 hs h3
    simp [decodeSecret, h1, hem, ht, hb, h2, hs, h3]
  · intro v hv
    unfold decodeSecret at hv
    cases h1 : w.jsonParse response.Payload with
    | error e => simp [h1] at hv
    | ok payload =>
      cases hem : getProp payload "errorMessage" with
      | error e => simp [h1, hem] at hv
      | ok em =>
        cases ht : truthy em with
        | true => simp [h1, hem, ht] at hv
        | false =>
          cases hb : getProp payload "body" with
          | error e => simp [h1, hem, ht, hb] at hv
          | ok pb =>
            cases h2 : w.jsonParse pb with
            | error e => simp [h1, hem, ht, hb, h2] at hv
            | ok body =>
              cases hs : getProp body "secret" with
              | error e => simp [h1, hem, ht, hb, h2, hs] at hv
              | ok secret =>
                simp only [h1, hem, ht, hb, h2, hs] at hv
                exact ⟨payload, pb, body, secret, rfl, hb, h2, hs, by simpa using hv⟩

theorem getSecretFromLambda_decodes_three_levels_witness :
    (getSecretFromLambda healthyWorld).result = Except.ok sampleBundle ∧
    (getSecretFromLambda garbledPayloadWorld).result =
      Except.error (JsVal.errorObj "SyntaxError" (JsVal.str "<html>")) ∧
    (getSecretFromLambda functionErrorWorld).result =
      Except.error (JsVal.errorObj "Error" (JsVal.str "boom")) :=
  ⟨(getSecretFromLambda_decodes_three_levels healthyWorld (sampleResponse 200 none payloadText)
      rfl).2.2.2.2.1 _ JsVal.undefined (JsVal.str bodyText) _ (JsVal.str secretText) sampleBundle
      rfl rfl rfl rfl rfl rfl rfl,
    (getSecretFromLambda_decodes_three_levels garbledPayloadWorld
      (sampleResponse 200 none "<html>") rfl).1 _ rfl,
    (getSecretFromLambda_decodes_three_levels functionErrorWorld
      (sampleResponse 200 (some "Unhandled") payloadTextFunctionError) rfl).2.1
      (JsVal.obj [("errorMessage", JsVal.str "boom")]) (JsVal.str "boom") rfl rfl rfl⟩

/-- C6 as stated fails: a response that reports a non-success status (status
code 500 in the payload; or status 500 and a function error on the invocation
response itself) and whose payload decodes makes `getSecretFromLambda` return
the credential bundle. -/
theorem getSecretFromLambda_returns_bundle_on_status_500 :
    (status500World.lambdaInvoke region lambdaFunctionName =
        Except.ok (sampleResponse 200 none payloadText500) ∧
      status500World.jsonParse (JsVal.str payloadText500) =
        Except.ok (JsVal.obj [("statusCode", JsVal.num 500), ("body", JsVal.str bodyText)]) ∧
      (getSecretFromLambda status500World).result = Except.ok sampleBundle) ∧
    (invokeStatus500World.lambdaInvoke region lambdaFunctionName =
        Except.ok (sampleResponse 500 (some "Unhandled") payloadText500) ∧
      (getSecretFromLambda invokeStatus500World).result = Except.ok sampleBundle) :=
  ⟨⟨rfl, rfl, rfl⟩, rfl, rfl⟩

/-- C6 amended: `getSecretFromLambda` fails when the invocation itself rejects,
and when the decoded payload carries a truthy `errorMessage`; the status fields
of a resolved response are not inspected: replacing `StatusCode` and
`FunctionError` of the response by any other values leaves the result unchanged,
and a payload without truthy `errorMessage` whose `body` and `secret` decode
yields the decoded value whatever else the payload reports. -/
theorem getSecretFromLambda_status_not_inspected (w : World) :
    (∀ e, w.lambdaInvoke region lambdaFunctionName = Except.error e →
      (getSecretFromLambda w).result = Except.error e) ∧
    (∀ response payload errorMessage,
      w.lambdaInvoke region lambdaFunctionName = Except.ok response →
      w.jsonParse response.Payload = Except.ok payload →
      getProp payload "errorMessage" = Except.ok errorMessage → truthy errorMessage = true →
      (getSecretFromLambda w).result = Except.error (JsVal.errorObj "Error" errorMessage)) ∧
    (∀ status functionError,
      (getSecretFromLambda (w.withStatus status functionError)).result =
      (getSecretFromLambda w).result) ∧
    (∀ response payload errorMessage payloadBody body secret v,
      w.lambdaInvoke region lambdaFunctionName = Except.ok response →
      w.jsonParse response.Payload = Except.ok payload →
      getProp payload "errorMessage" = Except.ok errorMessage → truthy errorMessage = false →
      getProp payload "body" = Except.ok payloadBody →
      w.jsonParse payloadBody = Except.ok body →
      getProp body "secret" = Except.ok secret →
      w.jsonParse secret = Except.ok v →
      (getSecretFromLambda w).result = Except.ok v) := by
  refine ⟨?_, ?_, ?_, ?_⟩
  · intro e h
    rw [getSecretFromLambda_result]
    simp [getSecretFromLambda_try, h]
  · intro response payload em hinv h1 hem ht
    rw [getSecretFromLambda_result]
    simp [getSecretFromLambda_try, hinv, decodeSecret, h1, hem, ht]
  · intro status fe
    rw [getSecretFromLambda_result, getSecretFromLambda_result]
    cases hinv : w.lambdaInvoke region lambdaFunctionName <;>
      simp [getSecretFromLambda_try, World.withStatus, hinv, decodeSecret, Except.map]
  · intro response payload em pb body secret v hinv h1 hem ht hb h2 hs h3
    rw [getSecretFromLambda_result]
    simp [getSecretFromLambda_try, hinv, decodeSecret, h1, hem, ht, hb, h2, hs, h3]

theorem getSecretFromLambda_status_not_inspected_witness :
    (getSecretFromLambda lambdaDownWorld).result = Except.error sampleFailure ∧
    (healthyWorld.withStatus 503 (some "Unhandled")).lambdaInvoke region lambdaFunctionName =
      Except.ok (sampleResponse 503 (some "Unhandled") payloadText) ∧
    (getSecretFromLambda (healthyWorld.withStatus 503 (some "Unhandled"))).result =
      (getSecretFromLambda healthyWorld).result ∧
    (getSecretFromLambda status500World).result = Except.ok sampleBundle :=
  ⟨(getSecretFromLambda_status_not_inspected lambdaDownWorld).1 sampleFailure rfl,
    rfl,
    (getSecretFromLambda_status_not_inspected healthyWorld).2.2.1 503 (some "Unhandled"),
    (getSecretFromLambda_status_not_inspected status500World).2.2.2
      (sampleResponse 200 none payloadText500)
      (JsVal.obj [("statusCode", JsVal.num 500), ("body", JsVal.str bodyText)])
      JsVal.undefined (JsVal.str bodyText) (JsVal.obj [("secret", JsVal.str secretText)])
      (JsVal.str secretText) sampleBundle rfl rfl rfl rfl rfl rfl rfl rfl⟩

/-- C10 (the code departs from the claim): when the broker accepts the
connection and opens channel 7 but the declaration of the queue `client-events`
fails, `connectRabbitMQ` resolves with the channel handle set to 7, and a
following `publishEvent` sends to that channel. -/
theorem connectRabbitMQ_keeps_channel_when_queue_refused :
    queueRefusedWorld.assertQueue 7 queueName true = Except.error sampleFailure ∧
    (connectRabbitMQ queueRefusedWorld none).result = Except.ok () ∧
    (connectRabbitMQ queueRefusedWorld none).channel = some 7 ∧
    sentMessages (publishEvent queueRefusedWorld (connectRabbitMQ queueRefusedWorld none).channel
      (JsVal.str "ClientUpdated") JsVal.null).effects = [("client-events", "event", true)] :=
  ⟨rfl, rfl, rfl, rfl⟩

end UpdateClient
